import Mathlib

/-!
Verification of the Document AI PDF layout-extraction pipeline.

Shallow embedding of `src/parser.py` (class `DocumentAILayoutParser`) and
`src/extract_llm_dataset.py`.  Python dictionaries become Lean structures;
the duck-typed Document AI response objects become explicit structures with
`Option` fields where the Python code tests truthiness or uses `hasattr`;
document text is a `List Char` (Python `str` slicing is character based);
floating point values that are only ever copied (page dimensions,
confidence) are modelled as rationals.  The wall-clock processing timestamp
is omitted: no verified property mentions it.
-/

namespace DocAI

/-! ## Python string primitives -/

/-- Python slicing `text[a:b]` for non-negative indices: the half-open,
length-clamped character range. -/
def pySlice (text : List Char) (a b : Nat) : List Char :=
  (text.drop a).take (b - a)

/-- Python `str.strip()`: remove leading and trailing whitespace. -/
def pyStrip (s : List Char) : List Char :=
  ((s.dropWhile Char.isWhitespace).reverse.dropWhile Char.isWhitespace).reverse

/-! ## Document AI response model (input side)

Fields the Python code reads with a truthiness test (`if x:`) or with
`hasattr` are `Option`s: `none` models an absent/unset/falsy field. -/

/-- A text segment of a text anchor.  Proto index fields are modelled as
`Option Nat` so that an unset index (`none`) and an explicit `0` are
distinguishable inputs; the Python truthiness test conflates them. -/
structure TextSegment where
  start_index : Option Nat
  end_index : Option Nat
deriving Repr, DecidableEq

structure TextAnchor where
  text_segments : List TextSegment
deriving Repr, DecidableEq

structure Vertex where
  x : Int
  y : Int
deriving Repr, DecidableEq

structure BoundingPoly where
  vertices : List Vertex
deriving Repr, DecidableEq

/-- Embeds `element.layout` of the response: bounding geometry, an optional text
anchor, and the optional `confidence` attribute read via `getattr`. -/
structure Layout where
  text_anchor : Option TextAnchor
  bounding_poly : BoundingPoly
  confidence : Option ℚ
deriving Repr, DecidableEq

/-- A block / paragraph / line / token of a page: the code only reads its
`layout`, which may be absent. -/
structure TextElement where
  layout : Option Layout
deriving Repr, DecidableEq

/-- A table cell.  `row_span` / `col_span` are `Option` because the code
guards the read with a `hasattr` check on the cell object. -/
structure TableCell where
  layout : Option Layout
  row_span : Option Nat
  col_span : Option Nat
deriving Repr, DecidableEq

structure TableRow where
  cells : List TableCell
deriving Repr, DecidableEq

structure Table where
  header_rows : List TableRow
  body_rows : List TableRow
deriving Repr, DecidableEq

/-- One side (name or value) of a form field: the code reads only its
`text_anchor`. -/
structure FieldPart where
  text_anchor : Option TextAnchor
deriving Repr, DecidableEq

structure FormField where
  field_name : Option FieldPart
  field_value : Option FieldPart
deriving Repr, DecidableEq

structure Dimension where
  width : ℚ
  height : ℚ
deriving Repr, DecidableEq

structure Page where
  dimension : Dimension
  blocks : List TextElement
  paragraphs : List TextElement
  lines : List TextElement
  tokens : List TextElement
  tables : List Table
  form_fields : List FormField
deriving Repr, DecidableEq

structure Document where
  text : List Char
  pages : List Page
deriving Repr, DecidableEq

/-! ## Flattened record model (output side) -/

/-- The dictionary returned by `_extract_text_element_info` when the
element has a layout. -/
structure TextElemInfo where
  page_number : Nat
  element_type : String
  element_number : Nat
  text : List Char
  text_length : Nat
  bounding_box : List (Int × Int)
  confidence : Option ℚ
deriving Repr, DecidableEq

/-- A block entry held in the dataset.  `info = none` models the empty
dictionary returned for a layout-less element; `file_name` models the
key that `_export_to_csv` assigns into the dictionary in place (absent,
i.e. `none`, until that assignment happens). -/
structure BlockEntry where
  info : Option TextElemInfo
  file_name : Option (List Char)
deriving Repr, DecidableEq

/-- The dictionary returned by `_extract_cell_info` (always complete). -/
structure TableCellInfo where
  page_number : Nat
  table_number : Nat
  row_index : Nat
  cell_index : Nat
  cell_type : String
  text : List Char
  text_length : Nat
  bounding_box : List (Int × Int)
  row_span : Nat
  col_span : Nat
deriving Repr, DecidableEq

/-- The dictionary returned by `_extract_table_info`. -/
structure TableInfo where
  page_number : Nat
  table_number : Nat
  rows_count : Nat
  header_rows_count : Nat
  cells : List TableCellInfo
deriving Repr, DecidableEq

/-- A table entry held in the dataset, with the `file_name` key that
`_export_to_csv` assigns in place (`none` until then). -/
structure TableEntry where
  info : TableInfo
  file_name : Option (List Char)
deriving Repr, DecidableEq

/-- The dictionary returned by `_extract_form_field_info`. -/
structure FormFieldInfo where
  page_number : Nat
  field_number : Nat
  field_name : List Char
  field_value : List Char
deriving Repr, DecidableEq

/-- The per-page summary dictionary built in `_extract_layout_info`. -/
structure PageInfo where
  page_number : Nat
  width : ℚ
  height : ℚ
  blocks_count : Nat
  paragraphs_count : Nat
  lines_count : Nat
  tokens_count : Nat
  tables_count : Nat
  form_fields_count : Nat
deriving Repr, DecidableEq

structure DocumentInfo where
  total_pages : Nat
  text_length : Nat
deriving Repr, DecidableEq

/-- The successful document record built by `_extract_layout_info`
(its `"status": "success"` field is carried by the `DocRecord.success`
constructor below). -/
structure LayoutData where
  file_path : List Char
  file_name : List Char
  document_info : DocumentInfo
  pages : List PageInfo
  blocks : List BlockEntry
  paragraphs : List (Option TextElemInfo)
  lines : List (Option TextElemInfo)
  tokens : List (Option TextElemInfo)
  tables : List TableEntry
  form_fields : List FormFieldInfo
deriving Repr, DecidableEq

/-- A corpus entry: either a successful layout record or the failure
dictionary built in the `except` branch of `process_pdf`, which has only
the keys `file_path`, `error` and `status`. -/
inductive DocRecord where
  | success (r : LayoutData)
  | failure (file_path : List Char) (error : List Char)
deriving Repr, DecidableEq

/-- Python `d.get("status")`. -/
def DocRecord.status : DocRecord → String
  | .success _ => "success"
  | .failure _ _ => "failed"

/-- Python `d.get("file_path", ...)`. -/
def DocRecord.getFilePath : DocRecord → List Char
  | .success r => r.file_path
  | .failure p _ => p

/-- Python `d.get("error", ...)` (absent on success records). -/
def DocRecord.getError : DocRecord → Option (List Char)
  | .success _ => none
  | .failure _ e => some e

/-- Python `d.get("paragraphs", [])`. -/
def DocRecord.getParagraphs : DocRecord → List (Option TextElemInfo)
  | .success r => r.paragraphs
  | .failure _ _ => []

/-- Python `d.get("document_info", ...).get("total_pages", 0)`. -/
def DocRecord.getTotalPages : DocRecord → Nat
  | .success r => r.document_info.total_pages
  | .failure _ _ => 0

/-- Python `d.get("file_name", "")`. -/
def DocRecord.getFileName : DocRecord → List Char
  | .success r => r.file_name
  | .failure _ _ => []

/-- Python `d.get("pages", [])`. -/
def DocRecord.getPages : DocRecord → List PageInfo
  | .success r => r.pages
  | .failure _ _ => []

/-- Python `d.get("lines", [])`. -/
def DocRecord.getLines : DocRecord → List (Option TextElemInfo)
  | .success r => r.lines
  | .failure _ _ => []

/-- Python `d.get("tokens", [])`. -/
def DocRecord.getTokens : DocRecord → List (Option TextElemInfo)
  | .success r => r.tokens
  | .failure _ _ => []

/-- Python `d.get("form_fields", [])`. -/
def DocRecord.getFormFields : DocRecord → List FormFieldInfo
  | .success r => r.form_fields
  | .failure _ _ => []

/-- The flattening-produced parts (every key except `file_name`) of the
block entries of a record. -/
def DocRecord.blockInfos : DocRecord → List (Option TextElemInfo)
  | .success r => r.blocks.map BlockEntry.info
  | .failure _ _ => []

/-- The `file_name` keys of the block entries of a record. -/
def DocRecord.blockFileNames : DocRecord → List (Option (List Char))
  | .success r => r.blocks.map BlockEntry.file_name
  | .failure _ _ => []

/-- The flattening-produced parts of the table entries of a record. -/
def DocRecord.tableInfos : DocRecord → List TableInfo
  | .success r => r.tables.map TableEntry.info
  | .failure _ _ => []

/-- The `file_name` keys of the table entries of a record. -/
def DocRecord.tableFileNames : DocRecord → List (Option (List Char))
  | .success r => r.tables.map TableEntry.file_name
  | .failure _ _ => []

/-! ## Text-anchor extraction (`parser.py` lines 236-241 and analogues) -/

/-- Embeds `int(segment.start_index) if segment.start_index else 0`: the Python
truthiness test sends both an unset index and an explicit zero to `0`. -/
def segStart (s : TextSegment) : Nat :=
  match s.start_index with
  | some n => if n = 0 then 0 else n
  | none => 0

/-- Embeds `int(segment.end_index) if segment.end_index else len(document_text)`. -/
def segEnd (s : TextSegment) (docLen : Nat) : Nat :=
  match s.end_index with
  | some n => if n = 0 then docLen else n
  | none => docLen

/-- The accumulation loop `extracted_text += document_text[start_idx:end_idx]`
over a segment list. -/
def anchorText (segs : List TextSegment) (docText : List Char) : List Char :=
  segs.foldl (fun acc s => acc ++ pySlice docText (segStart s) (segEnd s docText.length)) []

/-- Text-anchor extraction guarded by a truthiness test on the anchor:
`... .text_segments if <anchor> else []`. -/
def anchorOptText (anchor : Option TextAnchor) (docText : List Char) : List Char :=
  match anchor with
  | some ta => anchorText ta.text_segments docText
  | none => []

/-! ## Flattening functions (`parser.py`) -/

/-- Embeds `_extract_text_element_info`; `none` is the empty dictionary returned
when the element has no layout. -/
def extractTextElementInfo (element : TextElement) (documentText : List Char)
    (pageNum : Nat) (elementType : String) (elementNum : Nat) : Option TextElemInfo :=
  match element.layout with
  | none => none
  | some layout =>
    let vertices := layout.bounding_poly.vertices.map (fun v => (v.x, v.y))
    let extracted := anchorOptText layout.text_anchor documentText
    some {
      page_number := pageNum
      element_type := elementType
      element_number := elementNum
      text := pyStrip extracted
      text_length := (pyStrip extracted).length
      bounding_box := vertices
      confidence := layout.confidence }

/-- Embeds `_extract_cell_info`. -/
def extractCellInfo (cell : TableCell) (documentText : List Char)
    (pageNum tableNum rowIdx cellIdx : Nat) (cellType : String) : TableCellInfo :=
  let extracted :=
    match cell.layout with
    | some layout => anchorOptText layout.text_anchor documentText
    | none => []
  let vertices :=
    match cell.layout with
    | some layout => layout.bounding_poly.vertices.map (fun v => (v.x, v.y))
    | none => []
  { page_number := pageNum
    table_number := tableNum
    row_index := rowIdx
    cell_index := cellIdx
    cell_type := cellType
    text := pyStrip extracted
    text_length := (pyStrip extracted).length
    bounding_box := vertices
    row_span := match cell.row_span with | some v => v | none => 1
    col_span := match cell.col_span with | some v => v | none => 1 }

/-- Embeds `_extract_table_info`: header rows first, then body rows, each group
enumerated from row index 0, cells enumerated within each row. -/
def extractTableInfo (table : Table) (documentText : List Char)
    (pageNum tableNum : Nat) : TableInfo :=
  { page_number := pageNum
    table_number := tableNum
    rows_count := if table.body_rows = [] then 0 else table.body_rows.length
    header_rows_count := if table.header_rows = [] then 0 else table.header_rows.length
    cells :=
      (table.header_rows.enum.flatMap (fun ri =>
        ri.2.cells.enum.map (fun ci =>
          extractCellInfo ci.2 documentText pageNum tableNum ri.1 ci.1 "header"))) ++
      (table.body_rows.enum.flatMap (fun ri =>
        ri.2.cells.enum.map (fun ci =>
          extractCellInfo ci.2 documentText pageNum tableNum ri.1 ci.1 "body"))) }

/-- Embeds `_extract_form_field_info`. -/
def extractFormFieldInfo (field : FormField) (documentText : List Char)
    (pageNum fieldNum : Nat) : FormFieldInfo :=
  let nameText :=
    match field.field_name with
    | some part => anchorOptText part.text_anchor documentText
    | none => []
  let valueText :=
    match field.field_value with
    | some part => anchorOptText part.text_anchor documentText
    | none => []
  { page_number := pageNum
    field_number := fieldNum
    field_name := pyStrip nameText
    field_value := pyStrip valueText }

/-- The per-page summary dictionary of `_extract_layout_info`. -/
def extractPageInfo (pageNum : Nat) (page : Page) : PageInfo :=
  { page_number := pageNum
    width := page.dimension.width
    height := page.dimension.height
    blocks_count := page.blocks.length
    paragraphs_count := page.paragraphs.length
    lines_count := page.lines.length
    tokens_count := page.tokens.length
    tables_count := page.tables.length
    form_fields_count := page.form_fields.length }

/-- Python `os.path.basename` on a POSIX path. -/
def basename (p : List Char) : List Char :=
  (p.reverse.takeWhile (fun c => c ≠ '/')).reverse

/-- Embeds `_extract_layout_info`: one page-summary per page, and the flat child
lists accumulated page by page in page order (pages numbered from 1). -/
def extractLayoutInfo (document : Document) (pdfPath : List Char) : LayoutData :=
  { file_path := pdfPath
    file_name := basename pdfPath
    document_info :=
      { total_pages := document.pages.length
        text_length := document.text.length }
    pages := document.pages.enum.map (fun pg => extractPageInfo (pg.1 + 1) pg.2)
    blocks := document.pages.enum.flatMap (fun pg =>
      pg.2.blocks.enum.map (fun el =>
        { info := extractTextElementInfo el.2 document.text (pg.1 + 1) "block" el.1
          file_name := none }))
    paragraphs := document.pages.enum.flatMap (fun pg =>
      pg.2.paragraphs.enum.map (fun el =>
        extractTextElementInfo el.2 document.text (pg.1 + 1) "paragraph" el.1))
    lines := document.pages.enum.flatMap (fun pg =>
      pg.2.lines.enum.map (fun el =>
        extractTextElementInfo el.2 document.text (pg.1 + 1) "line" el.1))
    tokens := document.pages.enum.flatMap (fun pg =>
      pg.2.tokens.enum.map (fun el =>
        extractTextElementInfo el.2 document.text (pg.1 + 1) "token" el.1))
    tables := document.pages.enum.flatMap (fun pg =>
      pg.2.tables.enum.map (fun tb =>
        { info := extractTableInfo tb.2 document.text (pg.1 + 1) tb.1
          file_name := none }))
    form_fields := document.pages.enum.flatMap (fun pg =>
      pg.2.form_fields.enum.map (fun fd =>
        extractFormFieldInfo fd.2 document.text (pg.1 + 1) fd.1)) }

/-! ## Per-file processing and the batch loop (`process_pdf`, `process_all_pdfs`)

The file system and the remote service are the two effectful inputs of
`process_pdf`; they are modelled explicitly.  Every exception raised in the
`try` block (missing file, empty file, service failure) is caught by the
single `except` handler, which returns the failure dictionary. -/

/-- What `open(pdf_path, "rb")` finds on disk. -/
inductive FileEntry where
  | absent
  | file (content : List Nat)
deriving Repr, DecidableEq

/-- One input of a batch run: the path, what the file system holds there,
and what the remote service would answer for that file. -/
structure PdfInput where
  path : List Char
  entry : FileEntry
  service : Except (List Char) Document

/-- Embeds `process_pdf`: raises (and immediately catches) `FileNotFoundError`
for a missing file and `ValueError` for an empty file, catches any service
error, and otherwise flattens the returned document.  Every caught
exception becomes the `{"file_path", "error", "status": "failed"}`
dictionary. -/
def processPdf (input : PdfInput) : DocRecord :=
  match input.entry with
  | .absent => .failure input.path (("PDF file not found: ").toList ++ input.path)
  | .file content =>
    if content.length = 0 then
      .failure input.path (("PDF file is empty: ").toList ++ input.path)
    else
      match input.service with
      | .error e => .failure input.path e
      | .ok document => .success (extractLayoutInfo document input.path)

/-- Embeds `process_all_pdfs`: appends one record per file, in order, to the
dataset held by the parser object. -/
def processAllPdfs (dataset : List DocRecord) (files : List PdfInput) : List DocRecord :=
  dataset ++ files.map processPdf

/-! ## Summary statistics (`_create_summary_statistics`) -/

/-- The summary dictionary.  `average_pages_per_document` is a rational:
the Python value is the float quotient of two integer counts. -/
structure Summary where
  total_documents : Nat
  successful_documents : Nat
  failed_documents : Nat
  total_pages : Nat
  average_pages_per_document : ℚ
  total_blocks : Nat
  total_paragraphs : Nat
  total_lines : Nat
  total_tokens : Nat
  total_tables : Nat
  total_form_fields : Nat
deriving Repr, DecidableEq

/-- Python `d.get("blocks", [])` length, and the analogues below, for the aggregate counts. -/
def DocRecord.blocksLen : DocRecord → Nat
  | .success r => r.blocks.length
  | .failure _ _ => 0

def DocRecord.paragraphsLen : DocRecord → Nat
  | .success r => r.paragraphs.length
  | .failure _ _ => 0

def DocRecord.linesLen : DocRecord → Nat
  | .success r => r.lines.length
  | .failure _ _ => 0

def DocRecord.tokensLen : DocRecord → Nat
  | .success r => r.tokens.length
  | .failure _ _ => 0

def DocRecord.tablesLen : DocRecord → Nat
  | .success r => r.tables.length
  | .failure _ _ => 0

def DocRecord.formFieldsLen : DocRecord → Nat
  | .success r => r.form_fields.length
  | .failure _ _ => 0

/-- Embeds `_create_summary_statistics`: the summary dictionary is built with
`average_pages_per_document` initialised to `0`, and the quotient is
assigned only under the `successful_documents > 0` guard. -/
def createSummaryStatistics (dataset : List DocRecord) : Summary :=
  let successes := dataset.filter (fun d => d.status = "success")
  let base : Summary :=
    { total_documents := dataset.length
      successful_documents := successes.length
      failed_documents := (dataset.filter (fun d => d.status = "failed")).length
      total_pages := (successes.map DocRecord.getTotalPages).sum
      average_pages_per_document := 0
      total_blocks := (successes.map DocRecord.blocksLen).sum
      total_paragraphs := (successes.map DocRecord.paragraphsLen).sum
      total_lines := (successes.map DocRecord.linesLen).sum
      total_tokens := (successes.map DocRecord.tokensLen).sum
      total_tables := (successes.map DocRecord.tablesLen).sum
      total_form_fields := (successes.map DocRecord.formFieldsLen).sum }
  if base.successful_documents > 0 then
    { base with average_pages_per_document :=
        (base.total_pages : ℚ) / (base.successful_documents : ℚ) }
  else base

/-! ## CSV export (`_export_to_csv`)

The Python code iterates over the successful documents and executes
`block["file_name"] = doc.get("file_name", "")` (and the same for tables)
on the dictionaries held inside the corpus list, mutating them in place.
`exportToCsvDataset` is the resulting state of the corpus; summary
creation and the JSON dump only read the corpus. -/

def stampBlock (fname : List Char) (b : BlockEntry) : BlockEntry :=
  { b with file_name := some fname }

def stampTable (fname : List Char) (t : TableEntry) : TableEntry :=
  { t with file_name := some fname }

/-- The corpus after `_export_to_csv` has run. -/
def exportToCsvDataset (dataset : List DocRecord) : List DocRecord :=
  dataset.map (fun d =>
    match d with
    | .success r =>
      .success { r with
        blocks := r.blocks.map (stampBlock r.file_name)
        tables := r.tables.map (stampTable r.file_name) }
    | .failure p e => .failure p e)

/-! ## Downstream extractor (`extract_llm_dataset.py`) -/

/-- Python `paragraph.get("text", "")`: the empty dictionary yields the empty string. -/
def paragraphGetText (p : Option TextElemInfo) : List Char :=
  match p with
  | some info => info.text
  | none => []

/-- The extraction loop of `extract_llm_dataset.main`: skip non-success
documents, strip each paragraph text, keep it when its length reaches the
threshold.  Each kept text becomes one single-field JSONL record; the
output list is their contents in emission order. -/
def extractLlmParagraphs (dataset : List DocRecord) (minLength : Nat) : List (List Char) :=
  dataset.flatMap (fun doc =>
    if doc.status ≠ "success" then []
    else doc.getParagraphs.filterMap (fun p =>
      let text := pyStrip (paragraphGetText p)
      if minLength ≤ text.length then some text else none))

/-! ## Spec-side definitions

These restate parts of the specification in its own words, for the
refinement theorems that compare them with the code-derived definitions
above. -/

/-- Spec wording for the cell list of a table: all header-row cells first, then
all body-row cells; within each group the row index starts at 0 and
increments per row, cells appear in column order with their column index,
and every record carries the role tag of its group.  Written as explicit
counter-passing recursion, independent of the `enum`-based code path. -/
def specRowCells (documentText : List Char) (pageNum tableNum rowIdx : Nat)
    (role : String) : List TableCell → Nat → List TableCellInfo
  | [], _ => []
  | cell :: rest, colIdx =>
    extractCellInfo cell documentText pageNum tableNum rowIdx colIdx role ::
      specRowCells documentText pageNum tableNum rowIdx role rest (colIdx + 1)

def specGroupCells (documentText : List Char) (pageNum tableNum : Nat)
    (role : String) : List TableRow → Nat → List TableCellInfo
  | [], _ => []
  | row :: rest, rowIdx =>
    specRowCells documentText pageNum tableNum rowIdx role row.cells 0 ++
      specGroupCells documentText pageNum tableNum role rest (rowIdx + 1)

/-- The description the spec gives of the cell list of a flattened table. -/
def specTableCells (table : Table) (documentText : List Char)
    (pageNum tableNum : Nat) : List TableCellInfo :=
  specGroupCells documentText pageNum tableNum "header" table.header_rows 0 ++
    specGroupCells documentText pageNum tableNum "body" table.body_rows 0

/-! ## Concrete inputs used by witnesses and counterexamples -/

/-- A table cell with no layout and no span attributes. -/
def exCell : TableCell := { layout := none, row_span := none, col_span := none }

/-- A table with 1 header row of 2 cells and 2 body rows of 2 cells each. -/
def exTable : Table :=
  { header_rows := [{ cells := [exCell, exCell] }]
    body_rows := [{ cells := [exCell, exCell] }, { cells := [exCell, exCell] }] }

/-- A block entry as flattening creates it: here for a layout-less element
(empty dictionary, no `file_name` key yet). -/
def exBlockEntry : BlockEntry := { info := none, file_name := none }

/-- A successful document record with one block entry and three pages. -/
def exLayout : LayoutData :=
  { file_path := ("dir/a.pdf").toList
    file_name := ("a.pdf").toList
    document_info := { total_pages := 3, text_length := 0 }
    pages := []
    blocks := [exBlockEntry]
    paragraphs := []
    lines := []
    tokens := []
    tables := []
    form_fields := [] }

/-- The record `exLayout` as it stands after the CSV export has stamped its block
entry with the document file name. -/
def exLayoutStamped : LayoutData :=
  { exLayout with blocks := [{ exBlockEntry with file_name := some (("a.pdf").toList) }] }

/-- A paragraph record whose text has (trimmed) length 40. -/
def exPara40 : TextElemInfo :=
  { page_number := 1, element_type := "paragraph", element_number := 0
    text := List.replicate 40 'a', text_length := 40
    bounding_box := [], confidence := none }

/-- A paragraph record whose text has (trimmed) length 60. -/
def exPara60 : TextElemInfo :=
  { page_number := 1, element_type := "paragraph", element_number := 1
    text := List.replicate 60 'b', text_length := 60
    bounding_box := [], confidence := none }

/-- A successful document record with the two paragraphs above. -/
def exDocTwoParas : LayoutData :=
  { exLayout with blocks := [], paragraphs := [some exPara40, some exPara60] }

/-! ## Helper lemmas -/

/-- Accumulating `acc ++ f x` across a list, starting from `init`. -/
theorem foldl_append_eq {α β : Type} (f : α → List β) :
    ∀ (l : List α) (init : List β),
      l.foldl (fun acc x => acc ++ f x) init = init ++ (l.map f).flatten
  | [], init => by simp
  | x :: l, init => by
    simp only [List.foldl_cons, List.map_cons, List.flatten_cons]
    rw [foldl_append_eq f l (init ++ f x), List.append_assoc]

/-- Element-wise description of a Python slice. -/
theorem pySlice_getElem (t : List Char) (a b i : Nat) :
    (pySlice t a b)[i]? = if a + i < b then t[a + i]? else none := by
  unfold pySlice
  rw [List.getElem?_take, List.getElem?_drop]
  rcases Nat.lt_or_ge (a + i) b with h | h
  · rw [if_pos (by omega), if_pos h]
  · rw [if_neg (by omega), if_neg (by omega)]

/-- The function `specRowCells` agrees with the `enumFrom`-based rendering of the inner
cell loop. -/
theorem specRowCells_enumFrom (dt : List Char) (pn tn ri : Nat) (role : String) :
    ∀ (cells : List TableCell) (n : Nat),
      specRowCells dt pn tn ri role cells n =
        (cells.enumFrom n).map (fun ci => extractCellInfo ci.2 dt pn tn ri ci.1 role)
  | [], _ => by simp [specRowCells]
  | c :: cells, n => by
    simp [specRowCells, List.enumFrom, specRowCells_enumFrom dt pn tn ri role cells (n + 1)]

/-- The function `specGroupCells` agrees with the `enumFrom`-based rendering of the
row loop. -/
theorem specGroupCells_enumFrom (dt : List Char) (pn tn : Nat) (role : String) :
    ∀ (rows : List TableRow) (n : Nat),
      specGroupCells dt pn tn role rows n =
        (rows.enumFrom n).flatMap (fun ri =>
          ri.2.cells.enum.map (fun ci => extractCellInfo ci.2 dt pn tn ri.1 ci.1 role))
  | [], _ => by simp [specGroupCells]
  | r :: rows, n => by
    simp [specGroupCells, List.enumFrom, specGroupCells_enumFrom dt pn tn role rows (n + 1),
      specRowCells_enumFrom, List.enum]

/-! ## Claim theorems -/

/-- C1: element text is the concatenation, over the segment list in order,
of the half-open slices `[start, end)` of the full text buffer, where the
start defaults to 0 when `start_index` is zero or unset and the end
defaults to the full text length when `end_index` is zero or unset; in
particular a zero start offset and a missing start offset produce the same
extraction. -/
theorem c1_half_open_default_spans (docText : List Char) :
    (∀ segs : List TextSegment,
      anchorText segs docText =
        (segs.map (fun s => pySlice docText (segStart s) (segEnd s docText.length))).flatten) ∧
    (∀ s : TextSegment, (s.start_index = none ∨ s.start_index = some 0) → segStart s = 0) ∧
    (∀ s : TextSegment, (s.end_index = none ∨ s.end_index = some 0) →
      segEnd s docText.length = docText.length) ∧
    (∀ a b i, (pySlice docText a b)[i]? = if a + i < b then docText[a + i]? else none) ∧
    (∀ (e : Option Nat) (segs : List TextSegment),
      anchorText ({ start_index := some 0, end_index := e } :: segs) docText =
        anchorText ({ start_index := none, end_index := e } :: segs) docText) := by
  refine ⟨?_, ?_, ?_, ?_, ?_⟩
  · intro segs
    simpa using foldl_append_eq _ segs []
  · rintro s (h | h) <;> simp [segStart, h]
  · rintro s (h | h) <;> simp [segEnd, h]
  · intro a b i
    exact pySlice_getElem docText a b i
  · intro e segs
    rfl

theorem c1_witness :
    segStart { start_index := some 0, end_index := some 2 } = 0 ∧
    segEnd { start_index := some 7, end_index := none } 5 = 5 ∧
    anchorText [{ start_index := some 0, end_index := some 2 }] ("abc").toList =
      anchorText [{ start_index := none, end_index := some 2 }] ("abc").toList :=
  ⟨(c1_half_open_default_spans []).2.1 _ (Or.inr rfl),
   (c1_half_open_default_spans (List.replicate 5 'x')).2.2.1 _ (Or.inl rfl),
   (c1_half_open_default_spans (("abc").toList)).2.2.2.2 (some 2) []⟩

/-- C3: every document record produced by flattening has status "success",
and for each child entity kind the length of the flat child list equals the
sum of the per-page counts captured in the page-summary records. -/
theorem c3_page_counts_consistent (document : Document) (pdfPath : List Char) :
    (DocRecord.success (extractLayoutInfo document pdfPath)).status = "success" ∧
    (extractLayoutInfo document pdfPath).blocks.length =
      ((extractLayoutInfo document pdfPath).pages.map PageInfo.blocks_count).sum ∧
    (extractLayoutInfo document pdfPath).paragraphs.length =
      ((extractLayoutInfo document pdfPath).pages.map PageInfo.paragraphs_count).sum ∧
    (extractLayoutInfo document pdfPath).lines.length =
      ((extractLayoutInfo document pdfPath).pages.map PageInfo.lines_count).sum ∧
    (extractLayoutInfo document pdfPath).tokens.length =
      ((extractLayoutInfo document pdfPath).pages.map PageInfo.tokens_count).sum ∧
    (extractLayoutInfo document pdfPath).tables.length =
      ((extractLayoutInfo document pdfPath).pages.map PageInfo.tables_count).sum ∧
    (extractLayoutInfo document pdfPath).form_fields.length =
      ((extractLayoutInfo document pdfPath).pages.map PageInfo.form_fields_count).sum := by
  refine ⟨rfl, ?_, ?_, ?_, ?_, ?_, ?_⟩ <;>
  · simp only [extractLayoutInfo, List.length_flatMap, List.map_map]
    congr 1
    refine List.map_congr_left ?_
    intro pg _
    simp [extractPageInfo]

/-- C4: the cell list of a flattened table is exactly: all header-row cells (row
index counting from 0, cells in column order, role "header") followed by
all body-row cells (row index restarting from 0, cells in column order,
role "body"); a table of 1 header row of 2 cells and 2 body rows of 2
cells yields exactly these 6 cell records. -/
theorem c4_table_cell_order :
    (∀ (table : Table) (dt : List Char) (pn tn : Nat),
      (extractTableInfo table dt pn tn).cells = specTableCells table dt pn tn) ∧
    (extractTableInfo exTable [] 1 0).cells =
      [{ page_number := 1, table_number := 0, row_index := 0, cell_index := 0,
         cell_type := "header", text := [], text_length := 0, bounding_box := [],
         row_span := 1, col_span := 1 },
       { page_number := 1, table_number := 0, row_index := 0, cell_index := 1,
         cell_type := "header", text := [], text_length := 0, bounding_box := [],
         row_span := 1, col_span := 1 },
       { page_number := 1, table_number := 0, row_index := 0, cell_index := 0,
         cell_type := "body", text := [], text_length := 0, bounding_box := [],
         row_span := 1, col_span := 1 },
       { page_number := 1, table_number := 0, row_index := 0, cell_index := 1,
         cell_type := "body", text := [], text_length := 0, bounding_box := [],
         row_span := 1, col_span := 1 },
       { page_number := 1, table_number := 0, row_index := 1, cell_index := 0,
         cell_type := "body", text := [], text_length := 0, bounding_box := [],
         row_span := 1, col_span := 1 },
       { page_number := 1, table_number := 0, row_index := 1, cell_index := 1,
         cell_type := "body", text := [], text_length := 0, bounding_box := [],
         row_span := 1, col_span := 1 }] := by
  constructor
  · intro table dt pn tn
    simp [extractTableInfo, specTableCells, specGroupCells_enumFrom, List.enum]
  · rfl

/-- C5 counterexample: a span attribute that is present with value 0 is
copied as is, so a cell record with `row_span = 0` can be produced. -/
theorem c5_counterexample :
    ¬ 1 ≤ (extractCellInfo { layout := none, row_span := some 0, col_span := some 0 }
      [] 1 0 0 0 "body").row_span := by
  decide

/-- C5 (amended): the recorded spans equal the span values of the source cell
when the span attributes are present and default to 1 when they are
absent; consequently `row_span >= 1` and `col_span >= 1` hold whenever
every present source span value is at least 1 (the code itself never
clamps). -/
theorem c5_span_defaults (cell : TableCell) (dt : List Char)
    (pn tn ri ci : Nat) (role : String) :
    (cell.row_span = none → (extractCellInfo cell dt pn tn ri ci role).row_span = 1) ∧
    (∀ v, cell.row_span = some v → (extractCellInfo cell dt pn tn ri ci role).row_span = v) ∧
    (cell.col_span = none → (extractCellInfo cell dt pn tn ri ci role).col_span = 1) ∧
    (∀ v, cell.col_span = some v → (extractCellInfo cell dt pn tn ri ci role).col_span = v) ∧
    ((∀ v, cell.row_span = some v → 1 ≤ v) →
      1 ≤ (extractCellInfo cell dt pn tn ri ci role).row_span) ∧
    ((∀ v, cell.col_span = some v → 1 ≤ v) →
      1 ≤ (extractCellInfo cell dt pn tn ri ci role).col_span) := by
  obtain ⟨l, rs, cs⟩ := cell
  refine ⟨?_, ?_, ?_, ?_, ?_, ?_⟩
  · intro h; cases h; rfl
  · intro v h; cases h; rfl
  · intro h; cases h; rfl
  · intro v h; cases h; rfl
  · intro h
    cases rs with
    | none => exact Nat.le_refl 1
    | some v => exact h v rfl
  · intro h
    cases cs with
    | none => exact Nat.le_refl 1
    | some v => exact h v rfl

theorem c5_witness :
    (extractCellInfo exCell [] 1 0 0 0 "body").row_span = 1 ∧
    (extractCellInfo { exCell with row_span := some 3 } [] 1 0 0 0 "body").row_span = 3 ∧
    (extractCellInfo exCell [] 1 0 0 0 "body").col_span = 1 ∧
    1 ≤ (extractCellInfo { exCell with row_span := some 2 } [] 1 0 0 0 "body").row_span := by
  refine ⟨(c5_span_defaults exCell [] 1 0 0 0 "body").1 rfl, ?_,
    (c5_span_defaults exCell [] 1 0 0 0 "body").2.2.1 rfl, ?_⟩
  · exact (c5_span_defaults { exCell with row_span := some 3 } [] 1 0 0 0 "body").2.1 3 rfl
  · refine (c5_span_defaults { exCell with row_span := some 2 } [] 1 0 0 0 "body").2.2.2.2.1 ?_
    intro v hv
    simp [exCell] at hv
    omega

/-- C6: a text element with no layout object flattens to the empty record
(the function is total, so no exception is possible). -/
theorem c6_layoutless_element_empty (element : TextElement) (dt : List Char)
    (pn : Nat) (ty : String) (n : Nat) (h : element.layout = none) :
    extractTextElementInfo element dt pn ty n = none := by
  simp [extractTextElementInfo, h]

theorem c6_witness :
    extractTextElementInfo { layout := none } [] 1 "block" 0 = none :=
  c6_layoutless_element_empty { layout := none } [] 1 "block" 0 rfl

/-- C10: a table cell with no layout object still flattens to a complete
cell record — empty text, text length 0, empty bounding box, with all of
its index and role fields populated — rather than to the empty record,
and the (total) function cannot raise. -/
theorem c10_layoutless_cell_full_record (cell : TableCell) (dt : List Char)
    (pn tn ri ci : Nat) (role : String) (h : cell.layout = none) :
    (extractCellInfo cell dt pn tn ri ci role).text = [] ∧
    (extractCellInfo cell dt pn tn ri ci role).text_length = 0 ∧
    (extractCellInfo cell dt pn tn ri ci role).bounding_box = [] ∧
    (extractCellInfo cell dt pn tn ri ci role).page_number = pn ∧
    (extractCellInfo cell dt pn tn ri ci role).table_number = tn ∧
    (extractCellInfo cell dt pn tn ri ci role).row_index = ri ∧
    (extractCellInfo cell dt pn tn ri ci role).cell_index = ci ∧
    (extractCellInfo cell dt pn tn ri ci role).cell_type = role := by
  refine ⟨?_, ?_, ?_, rfl, rfl, rfl, rfl, rfl⟩ <;> simp [extractCellInfo, h, pyStrip]

theorem c10_witness :
    (extractCellInfo exCell [] 2 1 0 0 "header").text = [] ∧
    (extractCellInfo exCell [] 2 1 0 0 "header").text_length = 0 ∧
    (extractCellInfo exCell [] 2 1 0 0 "header").bounding_box = [] ∧
    (extractCellInfo exCell [] 2 1 0 0 "header").page_number = 2 ∧
    (extractCellInfo exCell [] 2 1 0 0 "header").table_number = 1 ∧
    (extractCellInfo exCell [] 2 1 0 0 "header").row_index = 0 ∧
    (extractCellInfo exCell [] 2 1 0 0 "header").cell_index = 0 ∧
    (extractCellInfo exCell [] 2 1 0 0 "header").cell_type = "header" :=
  c10_layoutless_cell_full_record exCell [] 2 1 0 0 "header" rfl

/-- The average-pages field of the summary, by cases on the guard. -/
theorem createSummaryStatistics_avg (dataset : List DocRecord) :
    (createSummaryStatistics dataset).average_pages_per_document =
      if (dataset.filter (fun d => d.status = "success")).length > 0 then
        ((createSummaryStatistics dataset).total_pages : ℚ) /
          ((createSummaryStatistics dataset).successful_documents : ℚ)
      else 0 := by
  by_cases hc : (dataset.filter (fun d => d.status = "success")).length > 0 <;>
    simp [createSummaryStatistics, hc]

/-- The successful-documents count of the summary. -/
theorem createSummaryStatistics_succ (dataset : List DocRecord) :
    (createSummaryStatistics dataset).successful_documents =
      (dataset.filter (fun d => d.status = "success")).length := by
  by_cases hc : (dataset.filter (fun d => d.status = "success")).length > 0 <;>
    simp [createSummaryStatistics, hc]

/-- C9: `average_pages_per_document` is 0 when there is no successful
document and is `total_pages / successful_documents` otherwise; the
quotient is only ever formed under the positive guard, so no division by
zero is performed. -/
theorem c9_average_pages_guard (dataset : List DocRecord) :
    ((createSummaryStatistics dataset).successful_documents = 0 →
      (createSummaryStatistics dataset).average_pages_per_document = 0) ∧
    ((createSummaryStatistics dataset).successful_documents ≠ 0 →
      (createSummaryStatistics dataset).average_pages_per_document =
        ((createSummaryStatistics dataset).total_pages : ℚ) /
          ((createSummaryStatistics dataset).successful_documents : ℚ)) := by
  constructor
  · intro h
    rw [createSummaryStatistics_succ] at h
    rw [createSummaryStatistics_avg, if_neg (by omega)]
  · intro h
    rw [createSummaryStatistics_succ] at h
    rw [createSummaryStatistics_avg, if_pos (by omega)]

theorem c9_witness :
    (createSummaryStatistics []).average_pages_per_document = 0 ∧
    (createSummaryStatistics [DocRecord.success exLayout]).average_pages_per_document =
      ((createSummaryStatistics [DocRecord.success exLayout]).total_pages : ℚ) /
        ((createSummaryStatistics [DocRecord.success exLayout]).successful_documents : ℚ) := by
  constructor
  · exact (c9_average_pages_guard []).1 rfl
  · exact (c9_average_pages_guard [DocRecord.success exLayout]).2 (by decide)

/-- C2 counterexample: running the CSV export mutates the corpus — the
`file_name` key of a block entry of a successful document changes from
absent to the file name of the document. -/
theorem c2_counterexample :
    exportToCsvDataset [DocRecord.success exLayout] ≠ [DocRecord.success exLayout] ∧
    (exportToCsvDataset [DocRecord.success exLayout]).map DocRecord.blockFileNames =
      [[some (("a.pdf").toList)]] ∧
    ([DocRecord.success exLayout]).map DocRecord.blockFileNames = [[none]] := by
  refine ⟨by decide, rfl, rfl⟩

/-- C2 (amended): summary statistics and the JSON dump only read the
corpus; the CSV export is the one mutating step, and it changes each
record only by setting the `file_name` key of every block entry and every
table entry of each successful document to the file name of that document;
every other field of every record, and every failed-document record in
full, is unchanged. -/
theorem c2_export_mutation_scope (dataset : List DocRecord) (i : Nat) (d d2 : DocRecord)
    (h1 : dataset[i]? = some d)
    (h2 : (exportToCsvDataset dataset)[i]? = some d2) :
    d2.status = d.status ∧
    d2.getFilePath = d.getFilePath ∧
    d2.getError = d.getError ∧
    d2.getFileName = d.getFileName ∧
    d2.getTotalPages = d.getTotalPages ∧
    d2.getPages = d.getPages ∧
    d2.getParagraphs = d.getParagraphs ∧
    d2.getLines = d.getLines ∧
    d2.getTokens = d.getTokens ∧
    d2.getFormFields = d.getFormFields ∧
    d2.blockInfos = d.blockInfos ∧
    d2.tableInfos = d.tableInfos ∧
    (d.status = "failed" → d2 = d) ∧
    (d.status = "success" →
      d2.blockFileNames = d.blockInfos.map (fun _ => some d.getFileName) ∧
      d2.tableFileNames = d.tableInfos.map (fun _ => some d.getFileName)) := by
  rw [exportToCsvDataset, List.getElem?_map, h1] at h2
  rw [Option.map_some'] at h2
  have hd2 := Option.some.inj h2
  subst hd2
  cases d with
  | failure p e =>
    refine ⟨rfl, rfl, rfl, rfl, rfl, rfl, rfl, rfl, rfl, rfl, rfl, rfl, fun _ => rfl, ?_⟩
    intro hs
    simp [DocRecord.status] at hs
  | success r =>
    refine ⟨rfl, rfl, rfl, rfl, rfl, rfl, rfl, rfl, rfl, rfl, ?_, ?_, ?_, ?_⟩
    · simp [DocRecord.blockInfos, stampBlock, List.map_map, Function.comp]
    · simp [DocRecord.tableInfos, stampTable, List.map_map, Function.comp]
    · intro hf
      simp [DocRecord.status] at hf
    · intro _
      constructor
      · simp [DocRecord.blockFileNames, DocRecord.blockInfos, DocRecord.getFileName,
          stampBlock, List.map_map, Function.comp]
      · simp [DocRecord.tableFileNames, DocRecord.tableInfos, DocRecord.getFileName,
          stampTable, List.map_map, Function.comp]

theorem c2_witness :
    (DocRecord.success exLayoutStamped).status = (DocRecord.success exLayout).status ∧
    (DocRecord.success exLayoutStamped).blockInfos = (DocRecord.success exLayout).blockInfos ∧
    (DocRecord.success exLayoutStamped).blockFileNames =
      (DocRecord.success exLayout).blockInfos.map
        (fun _ => some (DocRecord.success exLayout).getFileName) := by
  have h := c2_export_mutation_scope [DocRecord.success exLayout] 0
    (DocRecord.success exLayout) (DocRecord.success exLayoutStamped) rfl (by rfl)
  obtain ⟨hs, -, -, -, -, -, -, -, -, -, hb, -, -, hsucc⟩ := h
  exact ⟨hs, hb, (hsucc rfl).1⟩

/-- C7: each file of a batch contributes exactly one record at its own
position, independently of the other files, and a missing file, an empty
file, or a service error for that file becomes a `status = "failed"`
record carrying the file path and the error message instead of
propagating. -/
theorem c7_per_file_failure_isolation (dataset : List DocRecord) (files : List PdfInput) :
    (processAllPdfs dataset files).length = dataset.length + files.length ∧
    (∀ i : Nat, (processAllPdfs dataset files)[dataset.length + i]? =
      (files[i]?).map processPdf) ∧
    (∀ input : PdfInput, input.entry = FileEntry.absent →
      processPdf input = DocRecord.failure input.path
        ((("PDF file not found: ").toList) ++ input.path) ∧
      (processPdf input).status = "failed") ∧
    (∀ input : PdfInput, input.entry = FileEntry.file [] →
      processPdf input = DocRecord.failure input.path
        ((("PDF file is empty: ").toList) ++ input.path) ∧
      (processPdf input).status = "failed") ∧
    (∀ (input : PdfInput) (c : List Nat) (e : List Char),
      input.entry = FileEntry.file c → c ≠ [] → input.service = Except.error e →
      processPdf input = DocRecord.failure input.path e ∧
      (processPdf input).status = "failed" ∧
      (processPdf input).getFilePath = input.path ∧
      (processPdf input).getError = some e) := by
  refine ⟨by simp [processAllPdfs], ?_, ?_, ?_, ?_⟩
  · intro i
    rw [processAllPdfs, List.getElem?_append_right (by omega)]
    simp
  · intro input h
    obtain ⟨p, entry, svc⟩ := input
    cases h
    exact ⟨rfl, rfl⟩
  · intro input h
    obtain ⟨p, entry, svc⟩ := input
    cases h
    exact ⟨rfl, rfl⟩
  · intro input c e h1 h2 h3
    obtain ⟨p, entry, svc⟩ := input
    cases h1
    cases h3
    have hne : ¬ c.length = 0 := by
      cases c with
      | nil => exact absurd rfl h2
      | cons a l => simp
    simp [processPdf, hne, DocRecord.status, DocRecord.getFilePath, DocRecord.getError]

theorem c7_witness :
    processPdf ⟨("a").toList, FileEntry.absent, Except.error []⟩ =
      DocRecord.failure (("a").toList) ((("PDF file not found: ").toList) ++ ("a").toList) ∧
    processPdf ⟨("b").toList, FileEntry.file [], Except.error []⟩ =
      DocRecord.failure (("b").toList) ((("PDF file is empty: ").toList) ++ ("b").toList) ∧
    processPdf ⟨("c").toList, FileEntry.file [1], Except.error (("boom").toList)⟩ =
      DocRecord.failure (("c").toList) (("boom").toList) := by
  refine ⟨?_, ?_, ?_⟩
  · exact ((c7_per_file_failure_isolation [] []).2.2.1 _ rfl).1
  · exact ((c7_per_file_failure_isolation [] []).2.2.2.1 _ rfl).1
  · exact ((c7_per_file_failure_isolation [] []).2.2.2.2 _ [1] (("boom").toList)
      rfl (by simp) rfl).1

/-- Filtering through an `if`-guarded `filterMap`. -/
theorem filterMap_guard {α : Type} (g : α → List Char) (P : List Char → Prop)
    [DecidablePred P] (l : List α) :
    (l.filterMap fun a => if P (g a) then some (g a) else none) =
      (l.map g).filter (fun t => decide (P t)) := by
  induction l with
  | nil => rfl
  | cons a l ih =>
    by_cases h : P (g a) <;> simp [List.filterMap_cons, List.filter_cons, h, ih]

/-- Unfolding the extractor one document at a time. -/
theorem extractLlmParagraphs_cons (d : DocRecord) (ds : List DocRecord) (m : Nat) :
    extractLlmParagraphs (d :: ds) m =
      (if d.status = "success" then
        (d.getParagraphs.map (fun p => pyStrip (paragraphGetText p))).filter
          (fun t => decide (m ≤ t.length))
       else []) ++ extractLlmParagraphs ds m := by
  rw [extractLlmParagraphs, extractLlmParagraphs, List.flatMap_cons]
  congr 1
  by_cases h : d.status = "success"
  · rw [if_neg (not_not_intro h), if_pos h]
    exact filterMap_guard (fun p => pyStrip (paragraphGetText p))
      (fun t => m ≤ t.length) d.getParagraphs
  · rw [if_pos h, if_neg h]

/-- C8: the extractor emits exactly the stripped paragraph texts, of
length at least the threshold, of the successful documents, in corpus
order then paragraph order; on one successful document with paragraphs of
trimmed lengths 40 and 60 and threshold 50 it emits exactly the one
60-character text. -/
theorem c8_extractor_threshold :
    (∀ (dataset : List DocRecord) (minLength : Nat),
      extractLlmParagraphs dataset minLength =
        ((dataset.filter (fun d => d.status = "success")).map (fun d =>
          (d.getParagraphs.map (fun p => pyStrip (paragraphGetText p))).filter
            (fun t => decide (minLength ≤ t.length)))).flatten) ∧
    extractLlmParagraphs [DocRecord.success exDocTwoParas] 50 = [List.replicate 60 'b'] := by
  constructor
  · intro dataset minLength
    induction dataset with
    | nil => rfl
    | cons d ds ih =>
      rw [extractLlmParagraphs_cons, ih, List.filter_cons]
      by_cases h : d.status = "success"
      · simp [h]
      · simp [h]
  · rfl

end DocAI
